import Mathlib

/-!
# Verification of the `rand` bindings (`src/rand_bind.rs`)

Shallow embedding of the module that exposes pseudorandom generation to the
host language: a global, implicitly seeded generator (`next_int`,
`next_float`, `gen_int_range`) and an explicit value-semantics seeded
generator (`xor_shift_new`, `xor_shift_next`).

Machine integers are modelled as `Nat` reduced modulo `2^w` where overflow
matters; `u8` slices are `List Nat` with each element taken modulo `256` at
the point of use (the Rust type `&[u8]` guarantees bytes, the reduction
makes the embedding total on all of `Nat`).  Rust's
`RuntimeResult<T, String>` is `Except String T` (`Return` is `ok`, `Panic`
is `error`: a gluon-level recoverable failure, not a process abort).

The xorshift algorithm itself (`rand_xorshift::XorShiftRng`) and the global
generator (`rand::thread_rng`) come from external crates whose code is not
part of this repository; those parts are modelled from the spec, as marked
on each definition.
-/

namespace RandBind

/-- Two's-complement reinterpretation of a `Nat` below `2^64` as a signed
64-bit integer (`u64 as i64`), the `VmInt` produced by the draws. -/
def toI64 (n : Nat) : Int :=
  if n < 2 ^ 63 then (n : Int) else (n : Int) - 2 ^ 64

/-- Truncation to 32 bits (`u32` arithmetic wraps modulo `2^32`). -/
def u32 (n : Nat) : Nat := n % 2 ^ 32

/-- The 128-bit internal state of the seeded generator: four 32-bit words.
The spec's invariant "internal state is always exactly 16 bytes" is the
bound `< 2^32` on each word, established at construction and preserved by
the step function. -/
structure XorShiftState where
  x : Nat
  y : Nat
  z : Nat
  w : Nat
  deriving DecidableEq, Repr

/-- Modelled from the spec: one step of the 128-bit xorshift transition
function of `rand_xorshift::XorShiftRng` (not under `src/`; the spec calls
it "a 128-bit xorshift algorithm" with a pure step
`(State) -> (Output, State)`).  This is the classic xorshift128 step:
`t = x ^ (x << 11)`, the words shift down, and the new
`w = w ^ (w >> 19) ^ t ^ (t >> 8)` is the 32-bit output. -/
def next_u32 (s : XorShiftState) : Nat × XorShiftState :=
  let t := u32 (s.x ^^^ (s.x <<< 11))
  let w := u32 s.w
  let w' := (w ^^^ (w >>> 19)) ^^^ (t ^^^ (t >>> 8))
  (w', ⟨s.y, s.z, s.w, w'⟩)

/-- Modelled from the spec: a 64-bit draw assembled from two successive
32-bit steps, low word first (`rand_core`'s `next_u64_via_u32`).  The
host-visible `VmInt` draw of `xor_shift_next` is this value reinterpreted
as `i64`. -/
def next_u64 (s : XorShiftState) : Nat × XorShiftState :=
  let r1 := next_u32 s
  let r2 := next_u32 r1.2
  ((r2.1 <<< 32) ||| r1.1, r2.2)

/-- The host-visible seeded generator type: an opaque value wrapping the
128-bit xorshift state (struct `XorShiftRng` in the source). -/
structure XorShiftRng where
  state : XorShiftState
  deriving DecidableEq, Repr

/-- The two-field record `{ value, gen }` returned by `xor_shift_next`
(`RngNext<G>` / `record_type!` in the source). -/
structure RngNext where
  value : Int
  gen : XorShiftRng
  deriving DecidableEq, Repr

/-- Read one little-endian `u32` from four consecutive bytes of the seed
buffer starting at index `i` (out-of-range reads yield `0`; the callers
below only read in bounds, see `readBytes_isSome_of_le_length`). -/
def readU32LE (s : List Nat) (i : Nat) : Nat :=
  s.getD i 0 % 256
    + (s.getD (i + 1) 0 % 256) * 256
    + (s.getD (i + 2) 0 % 256) * 256 ^ 2
    + (s.getD (i + 3) 0 % 256) * 256 ^ 3

/-- Modelled from the spec: `rand_xorshift::XorShiftRng::from_seed` (not
under `src/`; the spec says the 16 seed bytes deterministically become the
128-bit internal state).  The 16 bytes are read as four little-endian
32-bit words; an all-zero seed is replaced by a fixed nonzero constant,
since xorshift cannot escape the all-zero state. -/
def from_seed (s : List Nat) : XorShiftState :=
  let a := readU32LE s 0
  let b := readU32LE s 4
  let c := readU32LE s 8
  let d := readU32LE s 12
  if a = 0 ∧ b = 0 ∧ c = 0 ∧ d = 0 then
    ⟨0xBAD5EED, 0xBAD5EED, 0xBAD5EED, 0xBAD5EED⟩
  else
    ⟨a, b, c, d⟩

/-- `xor_shift_new` from the source: if the seed buffer has exactly 16
bytes, reinterpret it as the internal state and return the generator;
any other length is a runtime failure carrying the source's (misleading)
message string. -/
def xor_shift_new (seed : List Nat) : Except String XorShiftRng :=
  if seed.length = 16 then
    Except.ok ⟨from_seed seed⟩
  else
    Except.error "Expected xorshift seed to have 4 elements"

/-- `xor_shift_next` from the source: clone the input generator, advance
the clone one step, and return the drawn integer together with the
successor generator.  The input is a value; the function is pure. -/
def xor_shift_next (gen : XorShiftRng) : RngNext :=
  let stepped := next_u64 gen.state
  { value := toI64 stepped.1, gen := ⟨stepped.2⟩ }

/-- One host call of `xor_shift_next` as seen by the caller: the function
receives the generator by shared reference (`&XorShiftRng`), clones it
internally, and never writes through the reference, so the call returns
the result record together with the caller's value exactly as it stood
before the call. -/
def xor_shift_next_call (gen : XorShiftRng) : RngNext × XorShiftRng :=
  (xor_shift_next gen, gen)

/-- The first `n` drawn integers obtained by threading the successor
generator forward through repeated `xor_shift_next` calls. -/
def draws (g : XorShiftRng) : Nat → List Int
  | 0 => []
  | n + 1 =>
    let r := xor_shift_next g
    r.value :: draws r.gen n

/-- Bounds-checked reading of `n` consecutive bytes of the buffer starting
at index `i`: `none` as soon as any index is out of bounds.  This is the
safe rendering of the raw-pointer read
`*(seed.as_ptr() as *const [u8; 16])` in `xor_shift_new`. -/
def readBytes (s : List Nat) : Nat → Nat → Option (List Nat)
  | _, 0 => some []
  | i, n + 1 =>
    match s[i]? with
    | some b =>
      match readBytes s (i + 1) n with
      | some bs => some (b :: bs)
      | none => none
    | none => none

/-- The bounds-checked version of the unchecked 16-byte reinterpretation
performed in the length-16 branch of `xor_shift_new`. -/
def checkedRead16 (s : List Nat) : Option (List Nat) :=
  readBytes s 0 16

/-- Modelled from the spec: the thread-local global generator behind
`rand::thread_rng()` (not under `src/`).  The spec treats it as a
process-wide generator, lazily seeded from OS entropy, advanced one step
per draw; the entropy is abstracted as an arbitrary stream of 64-bit
outputs together with the current position in the stream. -/
structure GlobalGen where
  outputs : Nat → Nat
  pos : Nat

/-- One draw from the global generator: the current 64-bit output, and the
generator advanced one position. -/
def GlobalGen.draw (g : GlobalGen) : Nat × GlobalGen :=
  (g.outputs g.pos % 2 ^ 64, ⟨g.outputs, g.pos + 1⟩)

/-- The state the module's operations can see: the global generator plus
every `XorShiftRng` value currently held by the host. -/
structure VmState where
  global : GlobalGen
  seeded : List XorShiftRng

/-- `next_int` from the source: an effectful draw of a full-range `VmInt`
from the global generator.  Modelled from the spec for the part behind
`thread_rng().gen()`: one 64-bit draw reinterpreted as `i64`. -/
def next_int (st : VmState) : Int × VmState :=
  let d := st.global.draw
  (toI64 d.1, { st with global := d.2 })

/-- `next_float` from the source: an effectful draw of a float in `[0,1)`
from the global generator.  Modelled from the spec for the part behind
`thread_rng().gen()`: one 64-bit draw scaled into `[0,1)`, represented
exactly as a rational. -/
def next_float (st : VmState) : Rat × VmState :=
  let d := st.global.draw
  ((d.1 : Rat) / 2 ^ 64, { st with global := d.2 })

/-- `gen_int_range` from the source: an effectful draw of an integer in
`[low, high)` from the global generator.  Modelled from the spec for the
part behind `thread_rng().gen_range(low, high)`: a non-empty range is
required (`low < high`), violating it is a reported runtime failure local
to the call; otherwise one 64-bit draw is reduced into the range. -/
def gen_int_range (low high : Int) (st : VmState) :
    Except String (Int × VmState) :=
  if low < high then
    let d := st.global.draw
    Except.ok
      (low + ((d.1 % (high - low).toNat : Nat) : Int),
        { st with global := d.2 })
  else
    Except.error "Uniform::sample_single called with low >= high"

/-- One host call touching only the global generator: the three effectful
draw operations of the module. -/
inductive GlobalCall where
  | int : GlobalCall
  | float : GlobalCall
  | range (low high : Int) : GlobalCall

/-- Execute one global draw call, keeping only the state (a failed ranged
draw leaves the state as it was). -/
def runCall (st : VmState) : GlobalCall → VmState
  | GlobalCall.int => (next_int st).2
  | GlobalCall.float => (next_float st).2
  | GlobalCall.range low high =>
    match gen_int_range low high st with
    | Except.ok r => r.2
    | Except.error _ => st

/-- Execute a sequence of global draw calls. -/
def runCalls (st : VmState) (cs : List GlobalCall) : VmState :=
  cs.foldl runCall st

/-- A concrete global generator (all-zero output stream), used to
instantiate universally quantified statements at a concrete state. -/
def gg0 : GlobalGen := ⟨fun _ => 0, 0⟩

/-- A concrete module state with an empty heap of seeded generators. -/
def vm0 : VmState := ⟨gg0, []⟩

/-- The all-ones 16-byte seed and the generator it constructs, used to
instantiate universally quantified statements at a concrete input. -/
def seedOnes : List Nat := List.replicate 16 1

/-- The generator constructed from `seedOnes`. -/
def gOnes : XorShiftRng := ⟨from_seed seedOnes⟩

deriving instance DecidableEq for Except

/-- Reading `n` bytes starting at `i` stays in bounds whenever
`i + n ≤ s.length`: the bounds-checked read cannot fail. -/
theorem readBytes_isSome_of_le_length (s : List Nat) :
    ∀ n i, i + n ≤ s.length → (readBytes s i n).isSome = true := by
  intro n
  induction n with
  | zero => intro i _; rfl
  | succ n ih =>
    intro i h
    have hi : i < s.length := by omega
    have hget : s[i]? = some s[i] := List.getElem?_eq_getElem hi
    have hrec := ih (i + 1) (by omega)
    cases hr : readBytes s (i + 1) n with
    | some bs => simp [readBytes, hget, hr]
    | none => rw [hr] at hrec; simp at hrec

/-- State of the module after one global draw call: the heap of seeded
generator values is exactly what it was. -/
theorem runCall_seeded (st : VmState) (c : GlobalCall) :
    (runCall st c).seeded = st.seeded := by
  cases c with
  | int => rfl
  | float => rfl
  | range low high =>
    by_cases h : low < high
    · simp [runCall, gen_int_range, h]
    · simp [runCall, gen_int_range, h]

/-- The global generator's evolution under one draw call does not depend
on the heap of seeded generator values. -/
theorem runCall_global_indep (st : VmState) (hs : List XorShiftRng)
    (c : GlobalCall) :
    (runCall { st with seeded := hs } c).global = (runCall st c).global := by
  cases c with
  | int => rfl
  | float => rfl
  | range low high =>
    by_cases h : low < high
    · simp [runCall, gen_int_range, h]
    · simp [runCall, gen_int_range, h]

/-- One draw call rebuilds the state from the new global generator and the
untouched heap. -/
theorem runCall_eta (st : VmState) (c : GlobalCall) :
    runCall st c = ⟨(runCall st c).global, st.seeded⟩ := by
  rw [← runCall_seeded st c]

/-- Frame property of sequences of global draw calls: the heap of seeded
generators is preserved, and the global generator's evolution is the same
for any two heaps. -/
theorem runCalls_frame (cs : List GlobalCall) :
    ∀ (g : GlobalGen) (hs1 hs2 : List XorShiftRng),
      (runCalls ⟨g, hs1⟩ cs).seeded = hs1 ∧
        (runCalls ⟨g, hs1⟩ cs).global = (runCalls ⟨g, hs2⟩ cs).global := by
  induction cs with
  | nil => intro g hs1 hs2; exact ⟨rfl, rfl⟩
  | cons c cs ih =>
    intro g hs1 hs2
    have hglob : (runCall ⟨g, hs1⟩ c).global = (runCall ⟨g, hs2⟩ c).global :=
      runCall_global_indep ⟨g, hs2⟩ hs1 c
    show (runCalls (runCall ⟨g, hs1⟩ c) cs).seeded = hs1 ∧
      (runCalls (runCall ⟨g, hs1⟩ c) cs).global
        = (runCalls (runCall ⟨g, hs2⟩ c) cs).global
    rw [runCall_eta ⟨g, hs1⟩ c, runCall_eta ⟨g, hs2⟩ c, hglob]
    exact ⟨(ih _ hs1 hs2).1,
      (ih ((runCall ⟨g, hs2⟩ c).global) hs1 hs2).2⟩

end RandBind

namespace RandBind

/-- C1: for every seed buffer of length exactly 16, `xor_shift_new`
succeeds, and construction is deterministic: any two generators obtained
from the same seed produce identical drawn values when each is advanced
once via `xor_shift_next`. -/
theorem xor_shift_new_deterministic (s : List Nat) (h : s.length = 16) :
    ∃ g : XorShiftRng, xor_shift_new s = Except.ok g ∧
      ∀ g1 g2 : XorShiftRng, xor_shift_new s = Except.ok g1 →
        xor_shift_new s = Except.ok g2 →
        (xor_shift_next g1).value = (xor_shift_next g2).value := by
  refine ⟨⟨from_seed s⟩, by simp [xor_shift_new, h], ?_⟩
  intro g1 g2 h1 h2
  cases Except.ok.inj (h1.symm.trans h2)
  rfl

/-- Witness for C1 at the concrete 16-byte all-zero seed. -/
theorem xor_shift_new_deterministic_witness :
    (List.replicate 16 (0 : Nat)).length = 16 ∧
      ∃ g : XorShiftRng,
        xor_shift_new (List.replicate 16 0) = Except.ok g ∧
          ∀ g1 g2 : XorShiftRng,
            xor_shift_new (List.replicate 16 0) = Except.ok g1 →
            xor_shift_new (List.replicate 16 0) = Except.ok g2 →
            (xor_shift_next g1).value = (xor_shift_next g2).value :=
  ⟨by decide, xor_shift_new_deterministic (List.replicate 16 0) (by decide)⟩

/-- C2 (code bug): at a 15-byte seed, `xor_shift_new` does fail and
produces no generator, but the message the code carries is the fixed
string "Expected xorshift seed to have 4 elements", not the
"expected seed of 16 bytes" description the spec requires. -/
theorem xor_shift_new_message_bug :
    xor_shift_new (List.replicate 15 0)
        = Except.error "Expected xorshift seed to have 4 elements" ∧
      "Expected xorshift seed to have 4 elements"
        ≠ "expected seed of 16 bytes" :=
  ⟨rfl, by decide⟩

/-- C3: `xor_shift_next` leaves its input unchanged (value semantics):
after one call the caller's generator is exactly what it was, and a second
independent call on it yields the same drawn value and the same successor
generator as the first. -/
theorem xor_shift_next_preserves_input (g : XorShiftRng) :
    (xor_shift_next_call g).2 = g ∧
      xor_shift_next_call ((xor_shift_next_call g).2)
        = xor_shift_next_call g :=
  ⟨rfl, rfl⟩

/-- C4: `gen_int_range` on an empty range (`high ≤ low`) fails with a
reported runtime failure and never returns a value. -/
theorem gen_int_range_fails_on_empty_range (low high : Int) (st : VmState)
    (h : high ≤ low) :
    gen_int_range low high st
        = Except.error "Uniform::sample_single called with low >= high" ∧
      ∀ v st', gen_int_range low high st ≠ Except.ok (v, st') := by
  have hlt : ¬ low < high := not_lt.mpr h
  refine ⟨by simp [gen_int_range, hlt], ?_⟩
  intro v st' hc
  simp [gen_int_range, hlt] at hc

/-- Witness for C4 at the concrete empty range `[5, 3)`. -/
theorem gen_int_range_fails_on_empty_range_witness :
    (3 : Int) ≤ 5 ∧
      (gen_int_range 5 3 vm0
          = Except.error "Uniform::sample_single called with low >= high" ∧
        ∀ v st', gen_int_range 5 3 vm0 ≠ Except.ok (v, st')) :=
  ⟨by decide, gen_int_range_fails_on_empty_range 5 3 vm0 (by decide)⟩

/-- C5: for every positive `n`, any two generators reconstructed from the
same original seed bytes replay the same `n`-length sequence of drawn
integers. -/
theorem draws_replay_deterministic (s : List Nat) (g1 g2 : XorShiftRng)
    (n : Nat) (_hn : 0 < n)
    (h1 : xor_shift_new s = Except.ok g1)
    (h2 : xor_shift_new s = Except.ok g2) :
    draws g1 n = draws g2 n := by
  cases Except.ok.inj (h1.symm.trans h2)
  rfl

/-- Witness for C5 at the all-ones seed and `n = 3`. -/
theorem draws_replay_deterministic_witness :
    (0 < 3 ∧ xor_shift_new seedOnes = Except.ok gOnes) ∧
      draws gOnes 3 = draws gOnes 3 :=
  ⟨⟨by decide, rfl⟩,
    draws_replay_deterministic seedOnes gOnes gOnes 3 (by decide) rfl rfl⟩

end RandBind

namespace RandBind

/-- C6: for every non-empty range (`low < high`), `gen_int_range` succeeds
and the returned value `v` satisfies `low ≤ v < high`. -/
theorem gen_int_range_in_bounds (low high : Int) (st : VmState)
    (h : low < high) :
    ∃ v st', gen_int_range low high st = Except.ok (v, st') ∧
      low ≤ v ∧ v < high := by
  have hpos : 0 < (high - low).toNat := by omega
  have hm : st.global.draw.1 % (high - low).toNat < (high - low).toNat :=
    Nat.mod_lt _ hpos
  refine ⟨low + ((st.global.draw.1 % (high - low).toNat : Nat) : Int),
    { st with global := st.global.draw.2 }, ?_, ?_, ?_⟩
  · simp [gen_int_range, h]
  · omega
  · omega

/-- Witness for C6 at the concrete range `[0, 10)`. -/
theorem gen_int_range_in_bounds_witness :
    (0 : Int) < 10 ∧
      ∃ v st', gen_int_range 0 10 vm0 = Except.ok (v, st') ∧
        (0 : Int) ≤ v ∧ v < 10 :=
  ⟨by decide, gen_int_range_in_bounds 0 10 vm0 (by decide)⟩

/-- C7: `xor_shift_next` is total: on every generator value it returns a
`{ value, gen }` record, with no error condition. -/
theorem xor_shift_next_total (g : XorShiftRng) :
    ∃ (v : Int) (g' : XorShiftRng),
      xor_shift_next g = { value := v, gen := g' } :=
  ⟨(xor_shift_next g).value, (xor_shift_next g).gen, rfl⟩

/-- C8: under the length-16 guard of `xor_shift_new`, the 16-byte
reinterpretation of the buffer is always in bounds: the bounds-checked
rendering of the read cannot hit its failure branch, and the construction
succeeds. -/
theorem seed_reinterpret_in_bounds (s : List Nat) (h : s.length = 16) :
    (checkedRead16 s).isSome = true ∧
      ∃ g, xor_shift_new s = Except.ok g := by
  refine ⟨readBytes_isSome_of_le_length s 16 0 (by omega), ?_⟩
  exact ⟨⟨from_seed s⟩, by simp [xor_shift_new, h]⟩

/-- Witness for C8 at a concrete 16-byte buffer. -/
theorem seed_reinterpret_in_bounds_witness :
    (List.replicate 16 (7 : Nat)).length = 16 ∧
      ((checkedRead16 (List.replicate 16 7)).isSome = true ∧
        ∃ g, xor_shift_new (List.replicate 16 7) = Except.ok g) :=
  ⟨by decide, seed_reinterpret_in_bounds (List.replicate 16 7) (by decide)⟩

/-- C9: the failure of `xor_shift_new` is independent of the invalid
input: any two buffers whose lengths differ from 16 yield the identical
error, the fixed string "Expected xorshift seed to have 4 elements". -/
theorem xor_shift_new_error_independent (b1 b2 : List Nat)
    (h1 : b1.length ≠ 16) (h2 : b2.length ≠ 16) :
    xor_shift_new b1
        = Except.error "Expected xorshift seed to have 4 elements" ∧
      xor_shift_new b1 = xor_shift_new b2 := by
  simp [xor_shift_new, h1, h2]

/-- Witness for C9 at the empty buffer and a 17-byte buffer. -/
theorem xor_shift_new_error_independent_witness :
    (([] : List Nat).length ≠ 16 ∧ (List.replicate 17 (5 : Nat)).length ≠ 16) ∧
      (xor_shift_new []
          = Except.error "Expected xorshift seed to have 4 elements" ∧
        xor_shift_new [] = xor_shift_new (List.replicate 17 5)) :=
  ⟨⟨by decide, by decide⟩,
    xor_shift_new_error_independent [] (List.replicate 17 5)
      (by decide) (by decide)⟩

/-- C10: the global draw operations never read or modify any seeded
generator value: after any sequence of global draw calls the heap of
`XorShiftRng` values is unchanged, and the global generator's evolution
(hence every drawn value) is independent of that heap. -/
theorem global_draws_preserve_generators (st : VmState)
    (cs : List GlobalCall) :
    (runCalls st cs).seeded = st.seeded ∧
      ∀ hs, (runCalls { st with seeded := hs } cs).global
        = (runCalls st cs).global := by
  constructor
  · exact (runCalls_frame cs st.global st.seeded st.seeded).1
  · intro hs
    exact (runCalls_frame cs st.global hs st.seeded).2

end RandBind
